import Mathlib

/-!
Verification of the server-side state engine of `NetUtils.py`:
the location/item store, the hint release state machine, the wire
codec and the rich-text renderer. Python dictionaries are embedded as
association lists preserving insertion order; Python sets of ids as
lists queried by membership; fallible operations return `Except`.
-/

namespace NetUtilsModel

/-! ## Location store (`_LocationStore`)

A store maps a finding player to that player's location table; each
location id maps to `(item id, receiving player, item flags)`.
Player/slot ids are `Nat`; location and item ids are `Int` as in the
source's 64-bit ids. -/

/-- `(item id, receiving player, item flags)` for a single location. -/
abbrev LocTriple := Int × Nat × Nat

/-- A single player's location table, in insertion order. -/
abbrev LocMap := List (Int × LocTriple)

/-- The constructor argument of `_LocationStore`: finding player to
location table, in insertion order. -/
abbrev StoreValues := List (Nat × LocMap)

/-- The key view of the store (Python `self.keys()` iteration order). -/
def storeKeys (values : StoreValues) : List Nat := values.map (·.1)

/-- Python `max(self)`: maximum of the player-id keys (the store is
checked nonempty before this is evaluated, so the `0` default is never
load-bearing). -/
def maxKey (values : StoreValues) : Nat := (storeKeys values).foldl max 0

/-- Python `self.get(p)` / `self[p]` on the player dimension. -/
def lookupStore (values : StoreValues) (p : Nat) : Option LocMap :=
  (values.find? (fun kv => kv.1 == p)).map (·.2)

/-- `_LocationStore.__init__`: reject an empty store, a key set whose
size differs from its maximum, and a nonempty location table for
player 0 (Python raises `ValueError` in each case). -/
def location_store_init (values : StoreValues) : Except String StoreValues :=
  if values.isEmpty then
    .error "Rejecting game with 0 players"
  else if values.length ≠ maxKey values then
    .error "Player IDs not continuous"
  else if ((lookupStore values 0).getD []).length ≠ 0 then
    .error "Invalid player id 0 for location"
  else
    .ok values

/-- Modelled from the spec's words (for comparison with
`location_store_init`, not from the source): the player-id keys are
exactly `1..N` for some `N ≥ 1` and no location is owned by player 0. -/
def spec_player_ids_valid (values : StoreValues) : Bool :=
  decide ((storeKeys values).toFinset = Finset.Icc 1 (maxKey values))
    && decide (1 ≤ maxKey values)
    && ((lookupStore values 0).getD []).isEmpty

/-- The checked-set state: `(team, slot)` to the set of checked
location ids, embedded as a list queried by membership. -/
abbrev CheckState := List ((Nat × Nat) × List Int)

/-- Python `state[team, slot]` (a `KeyError` when absent). -/
def lookupState (state : CheckState) (team slot : Nat) : Option (List Int) :=
  (state.find? (fun kv => kv.1 == (team, slot))).map (·.2)

/-- `_LocationStore.get_checked`: the slot's own location ids present
in the checked set, in table order, with the fast path returning `[]`
before the slot is even looked up when the checked set is empty. -/
def get_checked (values : StoreValues) (state : CheckState) (team slot : Nat) :
    Except String (List Int) :=
  match lookupState state team slot with
  | none => .error "KeyError: (team, slot)"
  | some checked =>
      if checked.isEmpty then
        .ok []
      else
        match lookupStore values slot with
        | some locs => .ok ((locs.map (·.1)).filter (fun l => decide (l ∈ checked)))
        | none => .error "KeyError: slot"

/-- `_LocationStore.get_missing`: the slot's location ids absent from
the checked set, with the fast path returning every location when the
checked set is empty. -/
def get_missing (values : StoreValues) (state : CheckState) (team slot : Nat) :
    Except String (List Int) :=
  match lookupState state team slot with
  | none => .error "KeyError: (team, slot)"
  | some checked =>
      match lookupStore values slot with
      | some locs =>
          if checked.isEmpty then
            .ok (locs.map (·.1))
          else
            .ok ((locs.map (·.1)).filter (fun l => decide (l ∉ checked)))
      | none => .error "KeyError: slot"

/-- `_LocationStore.get_remaining`: the item ids behind unchecked
locations of the slot, sorted ascending (Python `sorted`, embedded as
the stable `List.mergeSort`). -/
def get_remaining (values : StoreValues) (state : CheckState) (team slot : Nat) :
    Except String (List Int) :=
  match lookupState state team slot with
  | none => .error "KeyError: (team, slot)"
  | some checked =>
      match lookupStore values slot with
      | some locs =>
          .ok (((locs.filter (fun kv => decide (kv.1 ∉ checked))).map
            (fun kv => kv.2.1)).mergeSort (· ≤ ·))
      | none => .error "KeyError: slot"

/-! ## Hint identity (`Hint`)

The simple hint record. In the source `Hint` is a `NamedTuple`, so
equality compares all seven fields, while the custom `__hash__` hashes
only the five-field identity tuple. -/

/-- The `Hint` named tuple of the source, all seven fields. -/
structure Hint where
  receiving_player : Nat
  finding_player : Nat
  location : Int
  item : Int
  found : Bool
  entrance : String
  item_flags : Nat
deriving DecidableEq, Repr

/-- `Hint.__hash__` hashes exactly this tuple, so two hints have equal
Python hashes whenever their hash keys are equal. -/
def Hint.hashKey (h : Hint) : Nat × Nat × Int × Int × String :=
  (h.receiving_player, h.finding_player, h.location, h.item, h.entrance)

/-! ## Hint release state machine (`TriggeredHint` / `TriggerableHint`)

The per-(team, hint) release record holds a release state and the
cached release data; `re_check` recomputes the data when stale and is
a hard error on an unreleased record. -/

/-- The `release_state` values of a per-team hint record. -/
inductive RState where
  | unreleased
  | stale
  | fresh
  | broadcasted
deriving DecidableEq, Repr

/-- One per-(team, hint) record: `release_state` and the cached
`release_data` (`None` until first recomputed). Release data is
abstracted to a `Nat` tag standing for the projected hint value. -/
structure HintData where
  releaseState : RState
  releaseData : Option Nat
deriving DecidableEq, Repr

/-- A triggered hint as the state machine sees it: recipients and the
value `get_release_data` would currently produce. -/
structure THint where
  recipients : List Nat
  freshData : Nat
deriving DecidableEq, Repr

/-- `TriggeredHint.re_check`: a hard error while `unreleased`;
recomputes release data and moves to `fresh` when `stale`; otherwise
returns the cached data unchanged. -/
def re_check (h : THint) (d : HintData) : Except String (HintData × Option Nat) :=
  match d.releaseState with
  | .unreleased => .error "Called re_check on unreleased hint"
  | .stale => .ok ({ releaseState := .fresh, releaseData := some h.freshData },
      some h.freshData)
  | _ => .ok (d, d.releaseData)

/-- `TriggeredHint.check_and_set_broadcasted`: refresh via `re_check`
when `stale`, then move `fresh` to `broadcasted` and report `true`;
report `false` otherwise. -/
def check_and_set_broadcasted (h : THint) (d : HintData) :
    Except String (Bool × HintData) :=
  match (if d.releaseState = .stale then (re_check h d).map (·.1) else .ok d) with
  | .error e => .error e
  | .ok d' =>
      if d'.releaseState = .fresh then
        .ok (true, { d' with releaseState := .broadcasted })
      else
        .ok (false, d')

/-- The hint kinds of `team_data` are Python classes; a string tag
suffices for their identity. -/
abbrev HintKind := String

/-- `ctx.triggerable_hint_state["team_data"][team]`: hint kind to the
records of the hints of that kind, in insertion order. -/
abbrev TeamData := List (HintKind × List (THint × HintData))

/-- Python `set.add` on the insertion-ordered model of
`needed_updates`: append the pair unless already present. -/
def addPair (l : List (Nat × HintKind)) (p : Nat × HintKind) : List (Nat × HintKind) :=
  if p ∈ l then l else l ++ [p]

/-- Add `(player, hint_type)` for every recipient of a freshly
broadcasted hint. -/
def addRecipients (needed : List (Nat × HintKind)) (t : HintKind) (ps : List Nat) :
    List (Nat × HintKind) :=
  ps.foldl (fun acc p => addPair acc (p, t)) needed

/-- The inner loop of `broadcast_updates` over one hint kind's
records, threading the `needed_updates` set. -/
def broadcast_pass (t : HintKind) :
    List (THint × HintData) → List (Nat × HintKind) →
    Except String (List (THint × HintData) × List (Nat × HintKind))
  | [], needed => .ok ([], needed)
  | (h, d) :: rest, needed =>
      match check_and_set_broadcasted h d with
      | .error e => .error e
      | .ok (b, d') =>
          match broadcast_pass t rest
              (if b then addRecipients needed t h.recipients else needed) with
          | .error e => .error e
          | .ok (rest', needed') => .ok ((h, d') :: rest', needed')

/-- The outer loop of `broadcast_updates` over the team's hint kinds. -/
def broadcast_scan :
    TeamData → List (Nat × HintKind) →
    Except String (TeamData × List (Nat × HintKind))
  | [], needed => .ok ([], needed)
  | (t, hints) :: rest, needed =>
      match broadcast_pass t hints needed with
      | .error e => .error e
      | .ok (hints', needed') =>
          match broadcast_scan rest needed' with
          | .error e => .error e
          | .ok (rest', needed'') => .ok ((t, hints') :: rest', needed'')

/-- `TriggerableHint.broadcast_updates` for an initialized team:
returns the updated team data together with the list of
`on_changed_triggerable_hints(team, player, hint_type)` callback
invocations, one per element of the collected `needed_updates` set. -/
def broadcast_updates (td : TeamData) :
    Except String (TeamData × List (Nat × HintKind)) :=
  broadcast_scan td []

/-! ## Wire codec (`_object_hook` and the allowlist)

Decoded values: the untyped JSON tree plus the typed shapes the
object hook may reconstruct. Field values of a reconstructed named
tuple are stored as decoded values, exactly as Python's `cls(**o)`
stores whatever the mapping held. -/

/-- A decoded wire value. -/
inductive DVal where
  | null
  | bool (b : Bool)
  | num (n : Int)
  | str (s : String)
  | arr (xs : List DVal)
  | obj (kvs : List (String × DVal))
  | networkPlayer (team slot aliasVal name : DVal)
  | networkItem (item location player flags : DVal)
  | networkSlot (name game slotType groupMembers : DVal)
  | version (major minor build : Int)

/-- The errors the decoding hook can raise (Python `TypeError` /
`KeyError` / `ValueError` during reconstruction). -/
inductive CodecError where
  | missingField (shape field : String)
  | badValue (msg : String)
deriving DecidableEq, Repr

/-- Python `o.get(key)` on a decoded mapping. -/
def dget (kvs : List (String × DVal)) (k : String) : Option DVal :=
  (kvs.find? (fun kv => kv.1 == k)).map (·.2)

/-- The discriminator `o.get("class")` as the string it would have to
be to match a `custom_hooks` / `allowlist` key (no non-string value
compares equal to those string keys). -/
def classOf (kvs : List (String × DVal)) : Option String :=
  match dget kvs "class" with
  | some (.str s) => some s
  | _ => none

/-- Whether Python can hash a decoded value: `custom_hooks.get` and
`allowlist.get` hash the discriminator value, so an unhashable value
there is a `TypeError`. Scalars are hashable, lists and dicts are not,
and the named tuples are hashable exactly when their fields are. -/
def DVal.hashable : DVal → Bool
  | .null => true
  | .bool _ => true
  | .num _ => true
  | .str _ => true
  | .arr _ => false
  | .obj _ => false
  | .networkPlayer a b c d => a.hashable && b.hashable && c.hashable && d.hashable
  | .networkItem a b c d => a.hashable && b.hashable && c.hashable && d.hashable
  | .networkSlot a b c d => a.hashable && b.hashable && c.hashable && d.hashable
  | .version _ _ _ => true

/-- A required field of a reconstructed shape: a `TypeError` naming
the shape and field when absent. -/
def getField (shape : String) (kvs : List (String × DVal)) (f : String) :
    Except CodecError DVal :=
  match dget kvs f with
  | some v => .ok v
  | none => .error (.missingField shape f)

/-- Python `int(...)` on the values `get_any_version` feeds it. -/
def toIntVal (v : DVal) : Except CodecError Int :=
  match v with
  | .num n => .ok n
  | .str s => match s.toInt? with
      | some n => .ok n
      | none => .error (.badValue "invalid literal for int")
  | .bool b => .ok (if b then 1 else 0)
  | _ => .error (.badValue "int() argument must be a number or string")

/-- `int(data[f])`: read a required field and convert it to an int. -/
def getIntField (shape : String) (kvs : List (String × DVal)) (f : String) :
    Except CodecError Int :=
  match getField shape kvs f with
  | .error e => .error e
  | .ok v => toIntVal v

/-- `get_any_version`: lowercase the keys (.NET senders capitalize
them), then read `major`, `minor`, `build` as ints. -/
def get_any_version (kvs : List (String × DVal)) : Except CodecError DVal :=
  let low := kvs.map (fun kv => (kv.1.toLower, kv.2))
  match getIntField "Version" low "major" with
  | .error e => .error e
  | .ok major =>
      match getIntField "Version" low "minor" with
      | .error e => .error e
      | .ok minor =>
          match getIntField "Version" low "build" with
          | .error e => .error e
          | .ok build => .ok (.version major minor build)

/-- The dispatch of `_object_hook` past the hashability of the
discriminator: match the string view of the discriminator against
`custom_hooks` then `allowlist`; a `custom_hooks` hit parses via its
rule, an `allowlist` hit drops undeclared fields and reconstructs the
named tuple (defaults `flags = 0` and `group_members = ()` applied
when the field is absent), and anything else is returned as the
untyped mapping. -/
def object_hook_dispatch (kvs : List (String × DVal)) : Except CodecError DVal :=
  match classOf kvs with
  | some "Version" => get_any_version kvs
  | some "NetworkPlayer" =>
      (match getField "NetworkPlayer" kvs "team", getField "NetworkPlayer" kvs "slot",
          getField "NetworkPlayer" kvs "alias", getField "NetworkPlayer" kvs "name" with
      | .ok team, .ok slot, .ok aliasVal, .ok name =>
          .ok (.networkPlayer team slot aliasVal name)
      | .error e, _, _, _ => .error e
      | .ok _, .error e, _, _ => .error e
      | .ok _, .ok _, .error e, _ => .error e
      | .ok _, .ok _, .ok _, .error e => .error e)
  | some "NetworkItem" =>
      (match getField "NetworkItem" kvs "item", getField "NetworkItem" kvs "location",
          getField "NetworkItem" kvs "player" with
      | .ok item, .ok location, .ok player =>
          .ok (.networkItem item location player ((dget kvs "flags").getD (.num 0)))
      | .error e, _, _ => .error e
      | .ok _, .error e, _ => .error e
      | .ok _, .ok _, .error e => .error e)
  | some "NetworkSlot" =>
      (match getField "NetworkSlot" kvs "name", getField "NetworkSlot" kvs "game",
          getField "NetworkSlot" kvs "type" with
      | .ok name, .ok game, .ok slotType =>
          .ok (.networkSlot name game slotType
            ((dget kvs "group_members").getD (.arr [])))
      | .error e, _, _ => .error e
      | .ok _, .error e, _ => .error e
      | .ok _, .ok _, .error e => .error e)
  | _ => .ok (.obj kvs)

/-- `_object_hook`: `custom_hooks.get(o.get("class", None), None)`
first hashes the discriminator value — a `TypeError` when that value
is a list or dict — then dispatches on it. An absent key hashes `None`
and falls through to the untyped case. -/
def object_hook (kvs : List (String × DVal)) : Except CodecError DVal :=
  match dget kvs "class" with
  | none => .ok (.obj kvs)
  | some v =>
      if v.hashable = true then object_hook_dispatch kvs
      else .error (.badValue "unhashable type as class value")

/-- Whether a decoded value is one of the internal typed shapes (as
opposed to untyped wire data). -/
def DVal.isTypedShape : DVal → Bool
  | .networkPlayer _ _ _ _ => true
  | .networkItem _ _ _ _ => true
  | .networkSlot _ _ _ _ => true
  | .version _ _ _ => true
  | _ => false

/-- The discriminators the hook recognizes: the `allowlist` plus the
`custom_hooks` key. -/
def recognizedClasses : List String :=
  ["Version", "NetworkPlayer", "NetworkItem", "NetworkSlot"]

/-! ## Rich-text renderer (`JSONtoTextParser`)

A message part is the `JSONMessagePart` typed dict: every field
optional. Handlers receive the part, may overwrite its `text` and
`color` fields, and produce output text; the updated part is returned
alongside the output, mirroring the in-place mutation of the source. -/

/-- `JSONMessagePart`. -/
structure MsgPart where
  text : Option String := none
  type : Option String := none
  color : Option String := none
  player : Option Nat := none
  flags : Option Nat := none
deriving DecidableEq, Repr

/-- The context a parser is constructed over: the client's own slot
and the name resolvers (`lookup_in_slot` takes the id then the owning
player). -/
structure RenderCtx where
  slot : Nat
  player_names : Nat → String
  item_names : Nat → Nat → String
  location_names : Nat → Nat → String

/-- Python `str.split(";")`, structurally on the character list (the
split of the empty string is `[""]`, as in Python). -/
def splitSemiAux : List Char → List Char → List (List Char)
  | [], acc => [acc.reverse]
  | c :: cs, acc =>
      if c = ';' then acc.reverse :: splitSemiAux cs []
      else splitSemiAux cs (c :: acc)

/-- The color field split on `;`. -/
def split_on_semicolon (s : String) : List String :=
  (splitSemiAux s.data []).map String.mk

/-- A decimal digit's value. -/
def char_digit (c : Char) : Option Nat :=
  if '0' ≤ c ∧ c ≤ '9' then some (c.toNat - '0'.toNat) else none

/-- Accumulating decimal parse. -/
def parseNatAux : List Char → Nat → Option Nat
  | [], acc => some acc
  | c :: cs, acc =>
      match char_digit c with
      | none => none
      | some d => parseNatAux cs (acc * 10 + d)

/-- Python `int(text)` on the id strings the renderer feeds it: the
digits of a decimal numeral, anything else a `ValueError`. -/
def str_to_nat (s : String) : Option Nat :=
  match s.data with
  | [] => none
  | cs => parseNatAux cs 0

/-- The module-level ANSI `color_codes` table. -/
def ansi_color_codes : List (String × Nat) :=
  [("reset", 0), ("bold", 1), ("underline", 4), ("black", 30), ("red", 31),
   ("green", 32), ("yellow", 33), ("blue", 34), ("magenta", 35), ("cyan", 36),
   ("white", 37), ("black_bg", 40), ("red_bg", 41), ("green_bg", 42),
   ("yellow_bg", 43), ("blue_bg", 44), ("magenta_bg", 45), ("cyan_bg", 46),
   ("white_bg", 47)]

/-- Membership/lookup in the ANSI table. -/
def ansiLookup (code : String) : Option Nat :=
  (ansi_color_codes.find? (fun kv => kv.1 == code)).map (·.2)

/-- `color_code(code)` for a single resolved code. -/
def color_code (n : Nat) : String := "\x1b[" ++ toString n ++ "m"

/-- `_handle_text`: `node.get("text", "")`, node untouched. -/
def handle_text (node : MsgPart) : Except String (MsgPart × String) :=
  .ok (node, node.text.getD "")

/-- `_handle_color`: split `node["color"]` on `;`, emit the ANSI code
of every name found in the module-level table, then the text, then an
explicit reset. A missing `color` key is a `KeyError`. -/
def handle_color (node : MsgPart) : Except String (MsgPart × String) :=
  match node.color with
  | none => .error "KeyError: color"
  | some c =>
      let buffer := String.join
        (((split_on_semicolon c).filterMap ansiLookup).map color_code)
      .ok (node, buffer ++ node.text.getD "" ++ color_code 0)

/-- The color bucket `_handle_item_name` selects from the item flags. -/
def item_color (flags : Nat) : String :=
  if flags = 0 then "cyan"
  else if flags &&& 1 ≠ 0 then "plum"
  else if flags &&& 2 ≠ 0 then "slateblue"
  else if flags &&& 4 ≠ 0 then "salmon"
  else "cyan"

/-- `_handle_item_name`: overwrite `color` from the flags, delegate to
the color handler. -/
def handle_item_name (node : MsgPart) : Except String (MsgPart × String) :=
  handle_color { node with color := some (item_color (node.flags.getD 0)) }

/-- `_handle_item_id`: parse the id out of `text`, overwrite `text`
with the item-name lookup for the owning player, delegate to
`_handle_item_name`. -/
def handle_item_id (ctx : RenderCtx) (node : MsgPart) :
    Except String (MsgPart × String) :=
  match node.text with
  | none => .error "KeyError: text"
  | some t =>
      match str_to_nat t with
      | none => .error "ValueError: invalid literal for int"
      | some i =>
          match node.player with
          | none => .error "KeyError: player"
          | some p => handle_item_name { node with text := some (ctx.item_names i p) }

/-- `_handle_player_id`: parse the slot out of `text`, overwrite
`color` (magenta for the own slot, yellow otherwise) and `text` with
the player name, delegate to the color handler. -/
def handle_player_id (ctx : RenderCtx) (node : MsgPart) :
    Except String (MsgPart × String) :=
  match node.text with
  | none => .error "KeyError: text"
  | some t =>
      match str_to_nat t with
      | none => .error "ValueError: invalid literal for int"
      | some p =>
          handle_color { node with
            color := some (if p = ctx.slot then "magenta" else "yellow"),
            text := some (ctx.player_names p) }

/-- `_handle_player_name`: overwrite `color` with yellow. -/
def handle_player_name (node : MsgPart) : Except String (MsgPart × String) :=
  handle_color { node with color := some "yellow" }

/-- `_handle_location_name`: overwrite `color` with green. -/
def handle_location_name (node : MsgPart) : Except String (MsgPart × String) :=
  handle_color { node with color := some "green" }

/-- `_handle_location_id`: parse the id out of `text`, overwrite
`text` with the location-name lookup for the owning player, delegate
to `_handle_location_name`. -/
def handle_location_id (ctx : RenderCtx) (node : MsgPart) :
    Except String (MsgPart × String) :=
  match node.text with
  | none => .error "KeyError: text"
  | some t =>
      match str_to_nat t with
      | none => .error "ValueError: invalid literal for int"
      | some i =>
          match node.player with
          | none => .error "KeyError: player"
          | some p =>
              handle_location_name { node with text := some (ctx.location_names i p) }

/-- `_handle_entrance_name`: overwrite `color` with blue. -/
def handle_entrance_name (node : MsgPart) : Except String (MsgPart × String) :=
  handle_color { node with color := some "blue" }

/-- `handle_node`: dispatch on the part's `type` tag; anything
unrecognized (or absent) falls back to the text handler. -/
def handle_node (ctx : RenderCtx) (node : MsgPart) :
    Except String (MsgPart × String) :=
  match node.type with
  | some "color" => handle_color node
  | some "text" => handle_text node
  | some "player_id" => handle_player_id ctx node
  | some "player_name" => handle_player_name node
  | some "item_name" => handle_item_name node
  | some "item_id" => handle_item_id ctx node
  | some "location_name" => handle_location_name node
  | some "location_id" => handle_location_id ctx node
  | some "entrance_name" => handle_entrance_name node
  | _ => handle_text node

/-- `JSONtoTextParser.__call__`: render every part left to right,
joining the outputs; the updated parts are returned alongside, which
is how the source's in-place mutation of the input list surfaces in a
functional embedding. -/
def render (ctx : RenderCtx) : List MsgPart → Except String (List MsgPart × String)
  | [] => .ok ([], "")
  | n :: ns => do
      let (n', s) ← handle_node ctx n
      let (ns', rest) ← render ctx ns
      .ok (n' :: ns', s ++ rest)

/-! ## Theorems -/

/-- C1 (counterexample): the mapping `{0: {}, 2: {5: (7, 1, 0)}}`
constructs successfully — it has two keys whose maximum is two and
player 0 owns no location — yet its key set is not `{1..N}` for any
`N`, refuting the claimed equivalence. -/
theorem c1_counterexample :
    location_store_init [(0, []), (2, [(5, (7, 1, 0))])] =
      .ok [(0, []), (2, [(5, (7, 1, 0))])] ∧
    spec_player_ids_valid [(0, []), (2, [(5, (7, 1, 0))])] = false := by
  constructor
  · rfl
  · decide

/-- C1 (amended): for a mapping with distinct player-id keys, Location
Store construction succeeds iff the mapping is nonempty, the number of
player keys equals the maximum player id, and the location table of
player 0 (when present) is empty. Key sets `{1..N}` satisfy this, but
so do key sets containing 0 with an empty table, so the spec's
`{1..N}` characterization is strictly stronger than the code. -/
theorem c1_construction_iff (values : StoreValues)
    (hnd : (storeKeys values).Nodup) :
    location_store_init values = .ok values ↔
      values ≠ [] ∧ (storeKeys values).toFinset.card = maxKey values ∧
        (lookupStore values 0).getD [] = [] := by
  have hcard : (storeKeys values).toFinset.card = values.length := by
    rw [List.toFinset_card_of_nodup hnd]
    simp [storeKeys]
  unfold location_store_init
  split_ifs with h1 h2 h3
  · simp only [List.isEmpty_iff] at h1
    simp [h1]
  · simp only [List.isEmpty_iff] at h1
    have : (storeKeys values).toFinset.card ≠ maxKey values := by
      rw [hcard]; exact h2
    simp [this]
  · have : (lookupStore values 0).getD [] ≠ [] := by
      intro h
      rw [h] at h3
      exact h3 rfl
    simp [this]
  · simp only [List.isEmpty_iff] at h1
    simp only [ne_eq, not_not] at h2 h3
    simp [h1, hcard, h2, List.length_eq_zero.mp h3]

/-- C1 witness for the amended equivalence at the one-player store
`{1: {10: (7, 1, 0)}}`. -/
theorem c1_construction_iff_witness :
    location_store_init [(1, [(10, (7, 1, 0))])] = .ok [(1, [(10, (7, 1, 0))])] :=
  (c1_construction_iff [(1, [(10, (7, 1, 0))])] (by decide)).mpr
    ⟨by decide, by decide, by decide⟩

/-- C2 (counterexample): on a record still `unreleased`,
`check_and_set_broadcasted` does not raise — it returns normally with
`false`, leaving the record untouched (only `re_check` raises). -/
theorem c2_counterexample :
    check_and_set_broadcasted ⟨[1], 0⟩ ⟨.unreleased, none⟩ =
      .ok (false, ⟨.unreleased, none⟩) := by
  rfl

/-- C2 (amended): on a record still `unreleased`, `re_check` raises
the fatal invariant error, while `check_and_set_broadcasted` returns
normally with `false` and the record unchanged. -/
theorem c2_unreleased_behavior (h : THint) (d : HintData)
    (hu : d.releaseState = .unreleased) :
    re_check h d = .error "Called re_check on unreleased hint" ∧
    check_and_set_broadcasted h d = .ok (false, d) := by
  obtain ⟨s, rd⟩ := d
  simp only at hu
  subst hu
  exact ⟨rfl, rfl⟩

/-- C2 witness at a concrete unreleased record. -/
theorem c2_unreleased_behavior_witness :
    re_check ⟨[2], 5⟩ ⟨.unreleased, none⟩ =
        .error "Called re_check on unreleased hint" ∧
    check_and_set_broadcasted ⟨[2], 5⟩ ⟨.unreleased, none⟩ =
        .ok (false, ⟨.unreleased, none⟩) :=
  c2_unreleased_behavior ⟨[2], 5⟩ ⟨.unreleased, none⟩ rfl

/-- C3 (counterexample): two hints agreeing on
`(receiving, finding, location, item, entrance)` but differing in
`found` have equal hash keys (hence equal Python hashes) yet are not
equal — `Hint` is a named tuple, so `==` compares all seven fields and
set/dict deduplication keeps both records. -/
theorem c3_counterexample :
    Hint.hashKey ⟨1, 2, 3, 4, false, "", 0⟩ =
      Hint.hashKey ⟨1, 2, 3, 4, true, "", 0⟩ ∧
    (⟨1, 2, 3, 4, false, "", 0⟩ : Hint) ≠ ⟨1, 2, 3, 4, true, "", 0⟩ := by
  constructor
  · rfl
  · decide

/-- C3 (amended): hints agreeing on the five identity fields always
collide on the hash, but they are equal — and hence deduplicated —
only when they also agree on `found` and `item_flags`. -/
theorem c3_hash_eq_identity (h1 h2 : Hint)
    (hr : h1.receiving_player = h2.receiving_player)
    (hf : h1.finding_player = h2.finding_player)
    (hl : h1.location = h2.location)
    (hi : h1.item = h2.item)
    (he : h1.entrance = h2.entrance) :
    h1.hashKey = h2.hashKey ∧
      (h1 = h2 ↔ h1.found = h2.found ∧ h1.item_flags = h2.item_flags) := by
  obtain ⟨r1, f1, l1, i1, fd1, e1, g1⟩ := h1
  obtain ⟨r2, f2, l2, i2, fd2, e2, g2⟩ := h2
  simp only at hr hf hl hi he
  subst hr hf hl hi he
  simp [Hint.hashKey, Hint.mk.injEq]

/-- C3 witness at two concrete hints differing only in `item_flags`. -/
theorem c3_hash_eq_identity_witness :
    Hint.hashKey ⟨1, 2, 3, 4, true, "door", 0⟩ =
        Hint.hashKey ⟨1, 2, 3, 4, true, "door", 2⟩ ∧
      ((⟨1, 2, 3, 4, true, "door", 0⟩ : Hint) = ⟨1, 2, 3, 4, true, "door", 2⟩ ↔
        (true = true ∧ (0 : Nat) = 2)) :=
  c3_hash_eq_identity ⟨1, 2, 3, 4, true, "door", 0⟩ ⟨1, 2, 3, 4, true, "door", 2⟩
    rfl rfl rfl rfl rfl

/-- C6 (confirmed): for a validly constructed store, a checked-set
state with an entry for `(team, slot)` and a slot present in the
store, `get_checked` and `get_missing` succeed and partition the
slot's full location id set: disjoint, with union the whole set. -/
theorem c6_checked_missing_partition (values : StoreValues) (state : CheckState)
    (team slot : Nat) (checked : List Int) (locs : LocMap)
    (hvalid : location_store_init values = .ok values)
    (hs : lookupState state team slot = some checked)
    (hl : lookupStore values slot = some locs) :
    ∃ c m, get_checked values state team slot = .ok c ∧
      get_missing values state team slot = .ok m ∧
      Disjoint c.toFinset m.toFinset ∧
      c.toFinset ∪ m.toFinset = (locs.map (·.1)).toFinset := by
  by_cases hc : checked.isEmpty = true
  · have e1 : get_checked values state team slot = .ok [] := by
      simp [get_checked, hs, hc]
    have e2 : get_missing values state team slot = .ok (locs.map (·.1)) := by
      simp [get_missing, hs, hl, hc]
    exact ⟨[], locs.map (·.1), e1, e2, by simp, by simp⟩
  · have e1 : get_checked values state team slot =
        .ok ((locs.map (·.1)).filter (fun l => decide (l ∈ checked))) := by
      simp [get_checked, hs, hl, hc]
    have e2 : get_missing values state team slot =
        .ok ((locs.map (·.1)).filter (fun l => decide (l ∉ checked))) := by
      simp [get_missing, hs, hl, hc]
    refine ⟨_, _, e1, e2, ?_, ?_⟩
    · rw [Finset.disjoint_left]
      intro a ha hb
      simp only [List.mem_toFinset, List.mem_filter, decide_eq_true_eq,
        decide_not, Bool.not_eq_eq_eq_not, Bool.not_true, decide_eq_false_iff_not] at ha hb
      exact hb.2 ha.2
    · ext a
      simp only [Finset.mem_union, List.mem_toFinset, List.mem_filter,
        decide_eq_true_eq, decide_not, Bool.not_eq_eq_eq_not, Bool.not_true,
        decide_eq_false_iff_not]
      tauto

/-- C6 witness at a three-location store for slot 1 with `{10}`
checked. -/
theorem c6_checked_missing_partition_witness :
    ∃ c m, get_checked [(1, [(10, (5, 1, 0)), (20, (3, 1, 0)), (30, (5, 1, 0))])]
        [((0, 1), [10])] 0 1 = .ok c ∧
      get_missing [(1, [(10, (5, 1, 0)), (20, (3, 1, 0)), (30, (5, 1, 0))])]
        [((0, 1), [10])] 0 1 = .ok m ∧
      Disjoint c.toFinset m.toFinset ∧
      c.toFinset ∪ m.toFinset =
        (([(10, (5, 1, 0)), (20, (3, 1, 0)), (30, (5, 1, 0))] : LocMap).map
          (·.1)).toFinset :=
  c6_checked_missing_partition
    [(1, [(10, (5, 1, 0)), (20, (3, 1, 0)), (30, (5, 1, 0))])]
    [((0, 1), [10])] 0 1 [10] [(10, (5, 1, 0)), (20, (3, 1, 0)), (30, (5, 1, 0))]
    rfl rfl rfl

/-- C7 (confirmed): under the same hypotheses, `get_remaining` returns
a list of the same length as `get_missing`, sorted ascending, and
equal as a multiset to the item ids behind the unchecked locations
(duplicates preserved). -/
theorem c7_remaining_sorted (values : StoreValues) (state : CheckState)
    (team slot : Nat) (checked : List Int) (locs : LocMap)
    (hvalid : location_store_init values = .ok values)
    (hs : lookupState state team slot = some checked)
    (hl : lookupStore values slot = some locs) :
    ∃ r m, get_remaining values state team slot = .ok r ∧
      get_missing values state team slot = .ok m ∧
      r.length = m.length ∧
      r.Sorted (· ≤ ·) ∧
      r.Perm ((locs.filter (fun kv => decide (kv.1 ∉ checked))).map
        (fun kv => kv.2.1)) := by
  have e1 : get_remaining values state team slot =
      .ok (((locs.filter (fun kv => decide (kv.1 ∉ checked))).map
        (fun kv => kv.2.1)).mergeSort (· ≤ ·)) := by
    simp [get_remaining, hs, hl]
  by_cases hc : checked.isEmpty = true
  · rw [List.isEmpty_iff] at hc
    subst hc
    have e2 : get_missing values state team slot = .ok (locs.map (·.1)) := by
      simp [get_missing, hs, hl]
    refine ⟨_, _, e1, e2, ?_, List.sorted_mergeSort' _, List.mergeSort_perm _ _⟩
    simp
  · have e2 : get_missing values state team slot =
        .ok ((locs.map (·.1)).filter (fun l => decide (l ∉ checked))) := by
      simp [get_missing, hs, hl, hc]
    refine ⟨_, _, e1, e2, ?_, List.sorted_mergeSort' _, List.mergeSort_perm _ _⟩
    rw [List.length_mergeSort, List.length_map, List.filter_map, List.length_map]
    rfl

/-- C7 witness at the same store: the remaining item ids behind the
unchecked locations `{20, 30}` are `[3, 5]`, sorted. -/
theorem c7_remaining_sorted_witness :
    ∃ r m, get_remaining [(1, [(10, (5, 1, 0)), (20, (3, 1, 0)), (30, (5, 1, 0))])]
        [((0, 1), [10])] 0 1 = .ok r ∧
      get_missing [(1, [(10, (5, 1, 0)), (20, (3, 1, 0)), (30, (5, 1, 0))])]
        [((0, 1), [10])] 0 1 = .ok m ∧
      r.length = m.length ∧
      r.Sorted (· ≤ ·) ∧
      r.Perm ((([(10, (5, 1, 0)), (20, (3, 1, 0)), (30, (5, 1, 0))] : LocMap).filter
        (fun kv => decide (kv.1 ∉ ([10] : List Int)))).map (fun kv => kv.2.1)) :=
  c7_remaining_sorted
    [(1, [(10, (5, 1, 0)), (20, (3, 1, 0)), (30, (5, 1, 0))])]
    [((0, 1), [10])] 0 1 [10] [(10, (5, 1, 0)), (20, (3, 1, 0)), (30, (5, 1, 0))]
    rfl rfl rfl

/-! ### Broadcast pass lemmas (shared helpers for the dedup theorem) -/

theorem casb_unreleased (h : THint) (rd : Option Nat) :
    check_and_set_broadcasted h ⟨.unreleased, rd⟩ = .ok (false, ⟨.unreleased, rd⟩) := rfl

theorem casb_stale (h : THint) (rd : Option Nat) :
    check_and_set_broadcasted h ⟨.stale, rd⟩ =
      .ok (true, ⟨.broadcasted, some h.freshData⟩) := rfl

theorem casb_fresh (h : THint) (rd : Option Nat) :
    check_and_set_broadcasted h ⟨.fresh, rd⟩ = .ok (true, ⟨.broadcasted, rd⟩) := rfl

theorem casb_already (h : THint) (rd : Option Nat) :
    check_and_set_broadcasted h ⟨.broadcasted, rd⟩ =
      .ok (false, ⟨.broadcasted, rd⟩) := rfl

theorem addPair_mem (l : List (Nat × HintKind)) (p q : Nat × HintKind) :
    q ∈ addPair l p ↔ q ∈ l ∨ q = p := by
  unfold addPair
  split_ifs with h
  · constructor
    · exact Or.inl
    · rintro (hq | rfl)
      · exact hq
      · exact h
  · simp

theorem addPair_nodup (l : List (Nat × HintKind)) (p : Nat × HintKind)
    (h : l.Nodup) : (addPair l p).Nodup := by
  unfold addPair
  split_ifs with hp
  · exact h
  · simp [List.nodup_append, h, hp]

theorem addRecipients_mem (t : HintKind) (ps : List Nat) :
    ∀ (needed : List (Nat × HintKind)) (q : Nat × HintKind),
      q ∈ addRecipients needed t ps ↔ q ∈ needed ∨ (q.2 = t ∧ q.1 ∈ ps) := by
  induction ps with
  | nil =>
      intro needed q
      simp [addRecipients]
  | cons p ps ih =>
      intro needed q
      have : addRecipients needed t (p :: ps) =
          addRecipients (addPair needed (p, t)) t ps := rfl
      rw [this, ih, addPair_mem]
      obtain ⟨q1, q2⟩ := q
      simp only [Prod.mk.injEq, List.mem_cons]
      tauto

theorem addRecipients_nodup (t : HintKind) (ps : List Nat) :
    ∀ (needed : List (Nat × HintKind)), needed.Nodup →
      (addRecipients needed t ps).Nodup := by
  induction ps with
  | nil =>
      intro needed h
      exact h
  | cons p ps ih =>
      intro needed h
      exact ih (addPair needed (p, t)) (addPair_nodup needed (p, t) h)

/-- Whether a record newly transitions to `broadcasted` when
`check_and_set_broadcasted` visits it. -/
def newlyBroadcasted (d : HintData) : Prop :=
  d.releaseState = .stale ∨ d.releaseState = .fresh

theorem broadcast_pass_spec (t : HintKind) :
    ∀ (hints : List (THint × HintData)) (needed : List (Nat × HintKind)),
      ∃ hints' needed', broadcast_pass t hints needed = .ok (hints', needed') ∧
        (needed.Nodup → needed'.Nodup) ∧
        ∀ q, q ∈ needed' ↔ q ∈ needed ∨
          ∃ hd ∈ hints, q.2 = t ∧ q.1 ∈ hd.1.recipients ∧ newlyBroadcasted hd.2 := by
  intro hints
  induction hints with
  | nil =>
      intro needed
      exact ⟨[], needed, rfl, id, by simp⟩
  | cons hd rest ih =>
      intro needed
      obtain ⟨h, s, rd⟩ := hd
      cases s
      case unreleased =>
        obtain ⟨rest', needed', hrest, hnd, hmem⟩ := ih needed
        refine ⟨(h, ⟨.unreleased, rd⟩) :: rest', needed', ?_, hnd, ?_⟩
        · simp only [broadcast_pass, casb_unreleased]
          simp [hrest]
        · intro q
          rw [hmem q]
          simp only [List.mem_cons, newlyBroadcasted]
          constructor
          · rintro (hq | ⟨hd', hmem', rest⟩)
            · exact Or.inl hq
            · exact Or.inr ⟨hd', Or.inr hmem', rest⟩
          · rintro (hq | ⟨hd', hd_eq | hmem', h2, h1, hnew⟩)
            · exact Or.inl hq
            · subst hd_eq
              rcases hnew with hnew | hnew <;> exact absurd hnew (by simp)
            · exact Or.inr ⟨hd', hmem', h2, h1, hnew⟩
      case broadcasted =>
        obtain ⟨rest', needed', hrest, hnd, hmem⟩ := ih needed
        refine ⟨(h, ⟨.broadcasted, rd⟩) :: rest', needed', ?_, hnd, ?_⟩
        · simp only [broadcast_pass, casb_already]
          simp [hrest]
        · intro q
          rw [hmem q]
          simp only [List.mem_cons, newlyBroadcasted]
          constructor
          · rintro (hq | ⟨hd', hmem', rest⟩)
            · exact Or.inl hq
            · exact Or.inr ⟨hd', Or.inr hmem', rest⟩
          · rintro (hq | ⟨hd', hd_eq | hmem', h2, h1, hnew⟩)
            · exact Or.inl hq
            · subst hd_eq
              rcases hnew with hnew | hnew <;> exact absurd hnew (by simp)
            · exact Or.inr ⟨hd', hmem', h2, h1, hnew⟩
      case stale =>
        obtain ⟨rest', needed', hrest, hnd, hmem⟩ :=
          ih (addRecipients needed t h.recipients)
        refine ⟨(h, ⟨.broadcasted, some h.freshData⟩) :: rest', needed', ?_, ?_, ?_⟩
        · simp only [broadcast_pass, casb_stale]
          simp [hrest]
        · intro hn
          exact hnd (addRecipients_nodup t h.recipients needed hn)
        · intro q
          rw [hmem q, addRecipients_mem]
          simp only [List.mem_cons, newlyBroadcasted]
          constructor
          · rintro ((hq | ⟨h2, h1⟩) | ⟨hd', hmem', rest⟩)
            · exact Or.inl hq
            · exact Or.inr ⟨(h, ⟨.stale, rd⟩), Or.inl rfl, h2, h1, Or.inl rfl⟩
            · exact Or.inr ⟨hd', Or.inr hmem', rest⟩
          · rintro (hq | ⟨hd', hd_eq | hmem', h2, h1, hnew⟩)
            · exact Or.inl (Or.inl hq)
            · subst hd_eq
              exact Or.inl (Or.inr ⟨h2, h1⟩)
            · exact Or.inr ⟨hd', hmem', h2, h1, hnew⟩
      case fresh =>
        obtain ⟨rest', needed', hrest, hnd, hmem⟩ :=
          ih (addRecipients needed t h.recipients)
        refine ⟨(h, ⟨.broadcasted, rd⟩) :: rest', needed', ?_, ?_, ?_⟩
        · simp only [broadcast_pass, casb_fresh]
          simp [hrest]
        · intro hn
          exact hnd (addRecipients_nodup t h.recipients needed hn)
        · intro q
          rw [hmem q, addRecipients_mem]
          simp only [List.mem_cons, newlyBroadcasted]
          constructor
          · rintro ((hq | ⟨h2, h1⟩) | ⟨hd', hmem', rest⟩)
            · exact Or.inl hq
            · exact Or.inr ⟨(h, ⟨.fresh, rd⟩), Or.inl rfl, h2, h1, Or.inr rfl⟩
            · exact Or.inr ⟨hd', Or.inr hmem', rest⟩
          · rintro (hq | ⟨hd', hd_eq | hmem', h2, h1, hnew⟩)
            · exact Or.inl (Or.inl hq)
            · subst hd_eq
              exact Or.inl (Or.inr ⟨h2, h1⟩)
            · exact Or.inr ⟨hd', hmem', h2, h1, hnew⟩

theorem broadcast_scan_spec :
    ∀ (td : TeamData) (needed : List (Nat × HintKind)),
      ∃ td' needed', broadcast_scan td needed = .ok (td', needed') ∧
        (needed.Nodup → needed'.Nodup) ∧
        ∀ q, q ∈ needed' ↔ q ∈ needed ∨
          ∃ hints, (q.2, hints) ∈ td ∧
            ∃ hd ∈ hints, q.1 ∈ hd.1.recipients ∧ newlyBroadcasted hd.2 := by
  intro td
  induction td with
  | nil =>
      intro needed
      exact ⟨[], needed, rfl, id, by simp⟩
  | cons entry rest ih =>
      intro needed
      obtain ⟨t, hints⟩ := entry
      obtain ⟨hints', needed1, hpass, hnd1, hmem1⟩ := broadcast_pass_spec t hints needed
      obtain ⟨rest', needed', hrest, hnd, hmem⟩ := ih needed1
      refine ⟨(t, hints') :: rest', needed', ?_, fun hn => hnd (hnd1 hn), ?_⟩
      · simp only [broadcast_scan, hpass]
        simp [hrest]
      · intro q
        rw [hmem q, hmem1 q]
        simp only [List.mem_cons, Prod.mk.injEq]
        constructor
        · rintro ((hq | ⟨hd', hmem', h2, h1, hnew⟩) | ⟨hints2, hmem2, rest2⟩)
          · exact Or.inl hq
          · exact Or.inr ⟨hints, Or.inl ⟨h2, rfl⟩, hd', hmem', h1, hnew⟩
          · exact Or.inr ⟨hints2, Or.inr hmem2, rest2⟩
        · rintro (hq | ⟨hints2, ⟨h2, hh⟩ | hmem2, hd', hmem', h1, hnew⟩)
          · exact Or.inl (Or.inl hq)
          · subst hh
            exact Or.inl (Or.inr ⟨hd', hmem', h2, h1, hnew⟩)
          · exact Or.inr ⟨hints2, hmem2, hd', hmem', h1, hnew⟩

/-- C8 (confirmed): `broadcast_updates` on an initialized team's data
reports each distinct `(recipient, hint kind)` pair exactly once among
the hints that newly transition to `broadcasted` in this pass —
several transitioning hints of the same kind for the same recipient
collapse into a single callback invocation. -/
theorem c8_broadcast_dedup (td td' : TeamData) (calls : List (Nat × HintKind))
    (h : broadcast_updates td = .ok (td', calls)) :
    calls.Nodup ∧
      ∀ p t, (p, t) ∈ calls ↔
        ∃ hints, (t, hints) ∈ td ∧
          ∃ hd ∈ hints, p ∈ hd.1.recipients ∧ newlyBroadcasted hd.2 := by
  obtain ⟨td2, needed', hscan, hnd, hmem⟩ := broadcast_scan_spec td []
  rw [broadcast_updates, hscan] at h
  injection h with h
  injection h with h1 h2
  subst h1
  subst h2
  constructor
  · exact hnd List.nodup_nil
  · intro p t
    rw [hmem (p, t)]
    simp

/-- C8 witness: two hints of the same kind for recipient 1, one
`stale` and one `fresh`, both newly transition, yet the callback list
is the single pair `(1, "loc")`. -/
theorem c8_broadcast_dedup_witness :
    ([(1, "loc")] : List (Nat × HintKind)).Nodup ∧
      ∀ p t, (p, t) ∈ ([(1, "loc")] : List (Nat × HintKind)) ↔
        ∃ hints, (t, hints) ∈
            ([("loc", [(⟨[1], 7⟩, ⟨.stale, none⟩), (⟨[1], 8⟩, ⟨.fresh, some 8⟩)])] :
              TeamData) ∧
          ∃ hd ∈ hints, p ∈ hd.1.recipients ∧ newlyBroadcasted hd.2 :=
  c8_broadcast_dedup
    [("loc", [(⟨[1], 7⟩, ⟨.stale, none⟩), (⟨[1], 8⟩, ⟨.fresh, some 8⟩)])]
    [("loc", [(⟨[1], 7⟩, ⟨.broadcasted, some 7⟩), (⟨[1], 8⟩, ⟨.broadcasted, some 8⟩)])]
    [(1, "loc")] rfl

/-! ### Codec lemmas -/

theorem classOf_str (kvs : List (String × DVal)) (s : String)
    (h : classOf kvs = some s) : dget kvs "class" = some (.str s) := by
  unfold classOf at h
  cases hv : dget kvs "class" with
  | none =>
      rw [hv] at h
      simp at h
  | some v =>
      rw [hv] at h
      cases v <;> simp_all

theorem object_hook_dispatch_unrecognized (kvs : List (String × DVal))
    (h : ∀ s, classOf kvs = some s → ¬s ∈ recognizedClasses) :
    object_hook_dispatch kvs = .ok (.obj kvs) := by
  unfold object_hook_dispatch
  split
  · rename_i heq
    exact absurd (show ("Version" : String) ∈ recognizedClasses by
      simp [recognizedClasses]) (h _ heq)
  · rename_i heq
    exact absurd (show ("NetworkPlayer" : String) ∈ recognizedClasses by
      simp [recognizedClasses]) (h _ heq)
  · rename_i heq
    exact absurd (show ("NetworkItem" : String) ∈ recognizedClasses by
      simp [recognizedClasses]) (h _ heq)
  · rename_i heq
    exact absurd (show ("NetworkSlot" : String) ∈ recognizedClasses by
      simp [recognizedClasses]) (h _ heq)
  · rfl

/-- C4 (counterexample): the mapping `{"class": [1, 2]}` has a
discriminator that is absent from the allowlist — its string view is
`none`, it names nothing — yet decoding it raises: `dict.get` hashes
the discriminator value and a list is unhashable, a `TypeError`. So
"decoding such a mapping never raises" is false. -/
theorem c4_counterexample :
    object_hook [("class", DVal.arr [DVal.num 1, DVal.num 2])] =
        .error (.badValue "unhashable type as class value") ∧
      classOf [("class", DVal.arr [DVal.num 1, DVal.num 2])] = none :=
  ⟨rfl, rfl⟩

/-- C4 (amended): a decoded value that is one of the internal typed
shapes can only come out of the hook when the wire discriminator named
one of the four recognized classes; a mapping whose discriminator is
absent, or is a hashable value naming none of them, passes through the
hook unchanged, as an untyped mapping, without raising; but a mapping
whose discriminator value is itself a list or dict (unhashable) makes
the hook raise a `TypeError` instead of returning the untyped
mapping. -/
theorem c4_allowlist_boundary :
    (∀ kvs v, object_hook kvs = .ok v → v.isTypedShape = true →
      ∃ s, classOf kvs = some s ∧ s ∈ recognizedClasses) ∧
    (∀ kvs, (∀ v, dget kvs "class" = some v → v.hashable = true) →
      (∀ s, classOf kvs = some s → ¬s ∈ recognizedClasses) →
      object_hook kvs = .ok (.obj kvs)) ∧
    ∀ kvs v, dget kvs "class" = some v → v.hashable = false →
      object_hook kvs = .error (.badValue "unhashable type as class value") := by
  refine ⟨?_, ?_, ?_⟩
  · intro kvs v h ht
    cases hv : dget kvs "class" with
    | none =>
        simp only [object_hook, hv] at h
        injection h with h
        subst h
        simp [DVal.isTypedShape] at ht
    | some w =>
        by_cases hw : w.hashable = true
        · have hd : object_hook kvs = object_hook_dispatch kvs := by
            simp [object_hook, hv, hw]
          rw [hd] at h
          by_cases hrec : ∀ s, classOf kvs = some s → ¬s ∈ recognizedClasses
          · rw [object_hook_dispatch_unrecognized kvs hrec] at h
            injection h with h
            subst h
            simp [DVal.isTypedShape] at ht
          · push_neg at hrec
            exact hrec
        · have hd : object_hook kvs =
              .error (.badValue "unhashable type as class value") := by
            simp [object_hook, hv, hw]
          rw [hd] at h
          cases h
  · intro kvs hh hrec
    cases hv : dget kvs "class" with
    | none => simp [object_hook, hv]
    | some w =>
        have hw := hh w hv
        have hd : object_hook kvs = object_hook_dispatch kvs := by
          simp [object_hook, hv, hw]
        rw [hd]
        exact object_hook_dispatch_unrecognized kvs hrec
  · intro kvs v hv hw
    simp [object_hook, hv, hw]

/-- C4 witness: a mapping with the unrecognized but hashable (string)
discriminator `"Bogus"` decodes to itself, untyped, with no error. -/
theorem c4_allowlist_boundary_witness :
    object_hook [("class", DVal.str "Bogus"), ("x", DVal.num 1)] =
      .ok (.obj [("class", DVal.str "Bogus"), ("x", DVal.num 1)]) :=
  c4_allowlist_boundary.2.1 [("class", DVal.str "Bogus"), ("x", DVal.num 1)]
    (by
      intro v hv
      have h0 : dget [("class", DVal.str "Bogus"), ("x", DVal.num 1)] "class" =
          some (.str "Bogus") := rfl
      rw [h0] at hv
      injection hv with hv
      subst hv
      rfl)
    (by
      intro s hs
      have h0 : classOf [("class", DVal.str "Bogus"), ("x", DVal.num 1)] =
          some "Bogus" := rfl
      rw [h0] at hs
      injection hs with hs
      subst hs
      decide)

/-- C5 (confirmed): a recognized shape with all required fields
present reconstructs successfully whatever extra fields are in the
mapping — the result carries only the declared fields, so extras are
silently dropped (the concrete `NetworkItem` example keeps no trace of
the `extra` field and applies the `flags = 0` default) — while a
mapping missing a required field fails with the codec error naming the
shape and a missing field. -/
theorem c5_extra_dropped_missing_fails :
    (∀ kvs vt vs va vn, classOf kvs = some "NetworkPlayer" →
      dget kvs "team" = some vt → dget kvs "slot" = some vs →
      dget kvs "alias" = some va → dget kvs "name" = some vn →
      object_hook kvs = .ok (.networkPlayer vt vs va vn)) ∧
    (∀ kvs, classOf kvs = some "NetworkPlayer" →
      (∃ f ∈ ["team", "slot", "alias", "name"], dget kvs f = none) →
      ∃ f, f ∈ ["team", "slot", "alias", "name"] ∧ dget kvs f = none ∧
        object_hook kvs = .error (.missingField "NetworkPlayer" f)) ∧
    object_hook [("class", DVal.str "NetworkItem"), ("item", DVal.num 1),
        ("location", DVal.num 2), ("player", DVal.num 3), ("extra", DVal.num 9)] =
      .ok (.networkItem (.num 1) (.num 2) (.num 3) (.num 0)) := by
  refine ⟨?_, ?_, rfl⟩
  · intro kvs vt vs va vn hcl h1 h2 h3 h4
    have hv := classOf_str kvs _ hcl
    simp [object_hook, object_hook_dispatch, hv, hcl, DVal.hashable, getField,
      h1, h2, h3, h4]
  · intro kvs hcl hmiss
    have hv := classOf_str kvs _ hcl
    cases h1 : dget kvs "team" with
    | none =>
        refine ⟨"team", by simp, h1, ?_⟩
        simp [object_hook, object_hook_dispatch, hv, hcl, DVal.hashable, getField,
                  h1]
    | some vt =>
        cases h2 : dget kvs "slot" with
        | none =>
            refine ⟨"slot", by simp, h2, ?_⟩
            simp [object_hook, object_hook_dispatch, hv, hcl, DVal.hashable, getField,
                  h1, h2]
        | some vs =>
            cases h3 : dget kvs "alias" with
            | none =>
                refine ⟨"alias", by simp, h3, ?_⟩
                simp [object_hook, object_hook_dispatch, hv, hcl, DVal.hashable, getField,
                  h1, h2, h3]
            | some va =>
                cases h4 : dget kvs "name" with
                | none =>
                    refine ⟨"name", by simp, h4, ?_⟩
                    simp [object_hook, object_hook_dispatch, hv, hcl, DVal.hashable, getField,
                  h1, h2, h3, h4]
                | some vn =>
                    obtain ⟨f, hf, hnone⟩ := hmiss
                    simp only [List.mem_cons, List.mem_singleton] at hf
                    rcases hf with rfl | rfl | rfl | rfl | hf
                    · rw [h1] at hnone; cases hnone
                    · rw [h2] at hnone; cases hnone
                    · rw [h3] at hnone; cases hnone
                    · rw [h4] at hnone; cases hnone
                    · cases hf

/-- C5 witness: a `NetworkPlayer` mapping with a junk field decodes
successfully with the junk dropped; one with only `team` fails with a
missing-field codec error naming the shape. -/
theorem c5_extra_dropped_missing_fails_witness :
    object_hook [("class", DVal.str "NetworkPlayer"), ("team", DVal.num 0),
        ("slot", DVal.num 1), ("alias", DVal.str "a"), ("name", DVal.str "n"),
        ("junk", DVal.num 9)] =
      .ok (.networkPlayer (.num 0) (.num 1) (.str "a") (.str "n")) ∧
    ∃ f, f ∈ ["team", "slot", "alias", "name"] ∧
      dget [("class", DVal.str "NetworkPlayer"), ("team", DVal.num 0)] f = none ∧
      object_hook [("class", DVal.str "NetworkPlayer"), ("team", DVal.num 0)] =
        .error (.missingField "NetworkPlayer" f) :=
  ⟨c5_extra_dropped_missing_fails.1 _ _ _ _ _ rfl rfl rfl rfl rfl,
   c5_extra_dropped_missing_fails.2.1 _ rfl ⟨"slot", by simp, rfl⟩⟩

/-! ### Renderer theorems -/

/-- A concrete rendering context for witnesses: the client is slot 1,
player 2 is named Alice, and item 5 of player 2 is the Hammer. -/
def exCtx : RenderCtx where
  slot := 1
  player_names := fun p => if p = 2 then "Alice" else "Bob"
  item_names := fun i p => if i = 5 ∧ p = 2 then "Hammer" else "Junk"
  location_names := fun _ _ => "Cave"

/-- C9 (confirmed): rendering the part
`{"text": "5", "type": "item_id", "player": 2, "flags": 1}` overwrites
its text with the item-name lookup for item 5 of owning player 2 and
selects the advancement color bucket (`plum`); and in general the
item-name handler picks the bucket with precedence
advancement > useful > trap > plain over the flag bits. -/
theorem c9_item_id_advancement :
    (∀ ctx : RenderCtx, ∃ out,
      handle_node ctx ⟨some "5", some "item_id", none, some 2, some 1⟩ =
        .ok (⟨some (ctx.item_names 5 2), some "item_id", some "plum",
          some 2, some 1⟩, out)) ∧
    ∀ flags : Nat,
      (flags &&& 1 ≠ 0 → item_color flags = "plum") ∧
      (flags &&& 1 = 0 → flags &&& 2 ≠ 0 → item_color flags = "slateblue") ∧
      (flags &&& 1 = 0 → flags &&& 2 = 0 → flags &&& 4 ≠ 0 →
        item_color flags = "salmon") ∧
      (flags &&& 1 = 0 → flags &&& 2 = 0 → flags &&& 4 = 0 →
        item_color flags = "cyan") := by
  constructor
  · intro ctx
    refine ⟨"" ++ ctx.item_names 5 2 ++ color_code 0, ?_⟩
    with_unfolding_all rfl
  · intro flags
    refine ⟨?_, ?_, ?_, ?_⟩
    · intro h1
      have h0 : flags ≠ 0 := by
        intro h
        subst h
        simp at h1
      unfold item_color
      rw [if_neg h0, if_pos h1]
    · intro h1 h2
      have h0 : flags ≠ 0 := by
        intro h
        subst h
        simp at h2
      unfold item_color
      rw [if_neg h0, if_neg (fun hc => hc h1), if_pos h2]
    · intro h1 h2 h4
      have h0 : flags ≠ 0 := by
        intro h
        subst h
        simp at h4
      unfold item_color
      rw [if_neg h0, if_neg (fun hc => hc h1), if_neg (fun hc => hc h2), if_pos h4]
    · intro h1 h2 h4
      by_cases h0 : flags = 0
      · unfold item_color
        rw [if_pos h0]
      · unfold item_color
        rw [if_neg h0, if_neg (fun hc => hc h1), if_neg (fun hc => hc h2),
          if_neg (fun hc => hc h4)]

/-- C9 witness: the concrete part rendered with `exCtx`, plus the
advancement bucket at `flags = 1`. -/
theorem c9_item_id_advancement_witness :
    (∃ out, handle_node exCtx ⟨some "5", some "item_id", none, some 2, some 1⟩ =
      .ok (⟨some (exCtx.item_names 5 2), some "item_id", some "plum",
        some 2, some 1⟩, out)) ∧
    item_color 1 = "plum" :=
  ⟨c9_item_id_advancement.1 exCtx, (c9_item_id_advancement.2 1).1 (by decide)⟩

/-- C10 (confirmed): the renderer writes back into the message parts
it renders — for every id- or name-typed part the returned part has
its `color` (and for id parts its `text`) overwritten with computed
values — so the parts list differs after a render, and re-rendering
the returned list is not equivalent: in the concrete `player_id`
example the second render fails where the first succeeded, because
the name written over the text no longer parses as an id. -/
theorem c10_render_mutates :
    (∀ (ctx : RenderCtx) (node n' : MsgPart) (out : String),
      handle_node ctx node = .ok (n', out) →
      ((node.type = some "player_id" →
          ∃ p, n'.text = some (ctx.player_names p) ∧
            n'.color = some (if p = ctx.slot then "magenta" else "yellow")) ∧
        (node.type = some "player_name" →
          n'.color = some "yellow" ∧ n'.text = node.text) ∧
        (node.type = some "item_name" →
          n'.color = some (item_color (node.flags.getD 0)) ∧ n'.text = node.text) ∧
        (node.type = some "item_id" →
          ∃ i p, n'.text = some (ctx.item_names i p) ∧
            n'.color = some (item_color (node.flags.getD 0))) ∧
        (node.type = some "location_name" →
          n'.color = some "green" ∧ n'.text = node.text) ∧
        (node.type = some "location_id" →
          ∃ i p, n'.text = some (ctx.location_names i p) ∧
            n'.color = some "green") ∧
        (node.type = some "entrance_name" →
          n'.color = some "blue" ∧ n'.text = node.text))) ∧
    (render exCtx [⟨some "2", some "player_id", none, none, none⟩] =
        .ok ([⟨some "Alice", some "player_id", some "yellow", none, none⟩],
          "\x1b[33mAlice\x1b[0m") ∧
      (⟨some "Alice", some "player_id", some "yellow", none, none⟩ : MsgPart) ≠
        ⟨some "2", some "player_id", none, none, none⟩ ∧
      render exCtx [⟨some "Alice", some "player_id", some "yellow", none, none⟩] =
        .error "ValueError: invalid literal for int") := by
  constructor
  · intro ctx node n' out h
    refine ⟨?_, ?_, ?_, ?_, ?_, ?_, ?_⟩
    · intro ht
      have hd : handle_node ctx node = handle_player_id ctx node := by
        unfold handle_node
        rw [ht]
        with_unfolding_all rfl
      rw [hd] at h
      cases hn : node.text with
      | none => simp [handle_player_id, hn] at h
      | some t =>
          cases hp : str_to_nat t with
          | none => simp [handle_player_id, hn, hp] at h
          | some p =>
              simp [handle_player_id, hn, hp, handle_color] at h
              exact ⟨p, by simp [← h.1]⟩
    · intro ht
      have hd : handle_node ctx node = handle_player_name node := by
        unfold handle_node
        rw [ht]
        with_unfolding_all rfl
      rw [hd] at h
      simp [handle_player_name, handle_color] at h
      simp [← h.1]
    · intro ht
      have hd : handle_node ctx node = handle_item_name node := by
        unfold handle_node
        rw [ht]
        with_unfolding_all rfl
      rw [hd] at h
      simp [handle_item_name, handle_color] at h
      simp [← h.1]
    · intro ht
      have hd : handle_node ctx node = handle_item_id ctx node := by
        unfold handle_node
        rw [ht]
        with_unfolding_all rfl
      rw [hd] at h
      cases hn : node.text with
      | none => simp [handle_item_id, hn] at h
      | some t =>
          cases hp : str_to_nat t with
          | none => simp [handle_item_id, hn, hp] at h
          | some i =>
              cases hq : node.player with
              | none => simp [handle_item_id, hn, hp, hq] at h
              | some p =>
                  simp [handle_item_id, hn, hp, hq, handle_item_name,
                    handle_color] at h
                  exact ⟨i, p, by simp [← h.1]⟩
    · intro ht
      have hd : handle_node ctx node = handle_location_name node := by
        unfold handle_node
        rw [ht]
        with_unfolding_all rfl
      rw [hd] at h
      simp [handle_location_name, handle_color] at h
      simp [← h.1]
    · intro ht
      have hd : handle_node ctx node = handle_location_id ctx node := by
        unfold handle_node
        rw [ht]
        with_unfolding_all rfl
      rw [hd] at h
      cases hn : node.text with
      | none => simp [handle_location_id, hn] at h
      | some t =>
          cases hp : str_to_nat t with
          | none => simp [handle_location_id, hn, hp] at h
          | some i =>
              cases hq : node.player with
              | none => simp [handle_location_id, hn, hp, hq] at h
              | some p =>
                  simp [handle_location_id, hn, hp, hq, handle_location_name,
                    handle_color] at h
                  exact ⟨i, p, by simp [← h.1]⟩
    · intro ht
      have hd : handle_node ctx node = handle_entrance_name node := by
        unfold handle_node
        rw [ht]
        with_unfolding_all rfl
      rw [hd] at h
      simp [handle_entrance_name, handle_color] at h
      simp [← h.1]
  · refine ⟨?_, by decide, ?_⟩
    · with_unfolding_all rfl
    · with_unfolding_all rfl

/-- C10 witness: the concrete `player_id` part rendered with `exCtx`
has both `text` and `color` overwritten. -/
theorem c10_render_mutates_witness :
    ∃ p, (⟨some "Alice", some "player_id", some "yellow", none, none⟩ : MsgPart).text =
        some (exCtx.player_names p) ∧
      (⟨some "Alice", some "player_id", some "yellow", none, none⟩ : MsgPart).color =
        some (if p = exCtx.slot then "magenta" else "yellow") :=
  ((c10_render_mutates.1 exCtx ⟨some "2", some "player_id", none, none, none⟩
      ⟨some "Alice", some "player_id", some "yellow", none, none⟩
      "\x1b[33mAlice\x1b[0m" (by with_unfolding_all rfl)).1 rfl)

end NetUtilsModel
